import Mathlib

/-!
Verification of the Climate Stress-Test Simulation Engine of the FSRO dashboard.

The engine is the function `calculateStressOutcomes` of the Scenarios page:
a pure map from the six user-adjustable stress parameters to a report holding
baseline and projected financial metrics, five risk-dimension scores with an
overall mean, baseline-vs-projected deltas, and two discrete classifications
(`stress_level` and `capital_adequacy`).  All arithmetic is embedded over `ℚ`;
the JavaScript `parseFloat(x.toFixed(d))` idiom is embedded as `roundTo d`,
rounding half toward positive infinity at `d` decimal digits, which is what
`toFixed` specifies for the values that occur here.
-/

namespace FSRO

/-- The six stress-test parameters adjusted by the user on the Scenarios page. -/
structure StressParams where
  temperature_rise : ℚ
  carbon_price : ℚ
  green_investment_growth : ℚ
  fossil_phase_out : ℚ
  water_stress_level : ℚ
  disaster_frequency : ℚ
deriving DecidableEq

/-- The declared [min, max] ranges of `STRESS_TEST_PARAMS`. -/
def InRange (p : StressParams) : Prop :=
  1 ≤ p.temperature_rise ∧ p.temperature_rise ≤ 4 ∧
  500 ≤ p.carbon_price ∧ p.carbon_price ≤ 5000 ∧
  0 ≤ p.green_investment_growth ∧ p.green_investment_growth ≤ 50 ∧
  0 ≤ p.fossil_phase_out ∧ p.fossil_phase_out ≤ 15 ∧
  0 ≤ p.water_stress_level ∧ p.water_stress_level ≤ 100 ∧
  1 ≤ p.disaster_frequency ∧ p.disaster_frequency ≤ 3

/-- The `default` entries of `STRESS_TEST_PARAMS` (also the initial slider state). -/
def defaultParams : StressParams :=
  { temperature_rise := 1.5
    carbon_price := 1000
    green_investment_growth := 20
    fossil_phase_out := 5
    water_stress_level := 45
    disaster_frequency := 1.5 }

/-- `parseFloat(x.toFixed(d))`: round to `d` decimal digits, ties toward +infinity. -/
def roundTo (d : ℕ) (x : ℚ) : ℚ := ((round (x * 10 ^ d) : ℤ) : ℚ) / 10 ^ d

/-- `const baseNPA = 2.5`. -/
def baseNPA : ℚ := 2.5

/-- `const baseGDP = 6.5`. -/
def baseGDP : ℚ := 6.5

/-- `const baseExpectedLoss = 15000`. -/
def baseExpectedLoss : ℚ := 15000

/-- `const baseGreenFinance = 20`. -/
def baseGreenFinance : ℚ := 20

/-- `Math.pow(temperature_rise - 1.5, 2) * 0.8`. -/
def temperatureImpact (p : StressParams) : ℚ :=
  (p.temperature_rise - 1.5) ^ 2 * 0.8

/-- `(carbon_price - 1000) / 1000 * 0.3`. -/
def carbonPriceImpact (p : StressParams) : ℚ :=
  (p.carbon_price - 1000) / 1000 * 0.3

/-- `green_investment_growth * 0.02`. -/
def greenInvestmentBenefit (p : StressParams) : ℚ :=
  p.green_investment_growth * 0.02

/-- `fossil_phase_out * 0.15`. -/
def fossilPhaseOutCost (p : StressParams) : ℚ :=
  p.fossil_phase_out * 0.15

/-- `water_stress_level / 100 * 0.5`. -/
def waterStressImpact (p : StressParams) : ℚ :=
  p.water_stress_level / 100 * 0.5

/-- `(disaster_frequency - 1) * 1.2`. -/
def disasterImpact (p : StressParams) : ℚ :=
  (p.disaster_frequency - 1) * 1.2

/-- `Math.max(0, baseNPA + temperatureImpact + waterStressImpact + disasterImpact - greenInvestmentBenefit)`. -/
def projectedNPA (p : StressParams) : ℚ :=
  max 0 (baseNPA + temperatureImpact p + waterStressImpact p + disasterImpact p -
    greenInvestmentBenefit p)

/-- `Math.max(0, baseGDP - temperatureImpact * 0.5 - fossilPhaseOutCost * 0.3 - disasterImpact * 0.4 + greenInvestmentBenefit * 0.2)`. -/
def projectedGDP (p : StressParams) : ℚ :=
  max 0 (baseGDP - temperatureImpact p * 0.5 - fossilPhaseOutCost p * 0.3 -
    disasterImpact p * 0.4 + greenInvestmentBenefit p * 0.2)

/-- `baseExpectedLoss * (1 + temperatureImpact * 0.2 + disasterImpact * 0.15)`. -/
def projectedExpectedLoss (p : StressParams) : ℚ :=
  baseExpectedLoss * (1 + temperatureImpact p * 0.2 + disasterImpact p * 0.15)

/-- `baseGreenFinance + green_investment_growth * 0.5`. -/
def projectedGreenFinance (p : StressParams) : ℚ :=
  baseGreenFinance + p.green_investment_growth * 0.5

/-- `Math.min(100, (temperatureImpact + waterStressImpact + disasterImpact) * 25 + 30)`. -/
def physicalRisk (p : StressParams) : ℚ :=
  min 100 ((temperatureImpact p + waterStressImpact p + disasterImpact p) * 25 + 30)

/-- `Math.min(100, (carbonPriceImpact + fossilPhaseOutCost) * 20 + 25)`. -/
def transitionRisk (p : StressParams) : ℚ :=
  min 100 ((carbonPriceImpact p + fossilPhaseOutCost p) * 20 + 25)

/-- `Math.min(100, (projectedNPA / baseNPA - 1) * 50 + 40)`. -/
def financialRisk (p : StressParams) : ℚ :=
  min 100 ((projectedNPA p / baseNPA - 1) * 50 + 40)

/-- `Math.min(100, (disasterImpact + waterStressImpact) * 30 + 20)`. -/
def operationalRisk (p : StressParams) : ℚ :=
  min 100 ((disasterImpact p + waterStressImpact p) * 30 + 20)

/-- `Math.min(100, (carbon_price / 1000) * 15 + 30)`. -/
def regulatoryRisk (p : StressParams) : ℚ :=
  min 100 (p.carbon_price / 1000 * 15 + 30)

/-- `(physicalRisk + transitionRisk + financialRisk + operationalRisk + regulatoryRisk) / 5`. -/
def overallStressScore (p : StressParams) : ℚ :=
  (physicalRisk p + transitionRisk p + financialRisk p + operationalRisk p +
    regulatoryRisk p) / 5

/-- `-1 * (temperatureImpact + transitionRisk / 100) * 2`. -/
def capitalImpact (p : StressParams) : ℚ :=
  -1 * (temperatureImpact p + transitionRisk p / 100) * 2

/-- `Math.min(100, disasterImpact * 20 + waterStressImpact * 15 + 25)`. -/
def liquidityStress (p : StressParams) : ℚ :=
  min 100 (disasterImpact p * 20 + waterStressImpact p * 15 + 25)

/-- The `baseline` block of the returned report. -/
structure BaselineMetrics where
  npa_ratio : ℚ
  gdp_growth : ℚ
  expected_loss : ℚ
  green_finance_share : ℚ
  capital_ratio : ℚ
  liquidity_coverage : ℚ
deriving DecidableEq

/-- The `projected` block of the returned report. -/
structure ProjectedMetrics where
  npa_ratio : ℚ
  gdp_growth : ℚ
  expected_loss : ℚ
  green_finance_share : ℚ
  capital_ratio : ℚ
  liquidity_coverage : ℚ
deriving DecidableEq

/-- The `risk_scores` block of the returned report. -/
structure RiskScores where
  physical : ℚ
  transition : ℚ
  financial : ℚ
  operational : ℚ
  regulatory : ℚ
  overall : ℚ
deriving DecidableEq

/-- The `changes` block of the returned report. -/
structure StressChanges where
  npa_change : ℚ
  gdp_change : ℚ
  loss_change_pct : ℚ
deriving DecidableEq

/-- The full report returned by `calculateStressOutcomes`. -/
structure StressReport where
  baseline : BaselineMetrics
  projected : ProjectedMetrics
  risk_scores : RiskScores
  changes : StressChanges
  stress_level : String
  capital_adequacy : String
deriving DecidableEq

/-- The engine: `calculateStressOutcomes` of the Scenarios page, field for field. -/
def calculateStressOutcomes (p : StressParams) : StressReport :=
  { baseline :=
      { npa_ratio := baseNPA
        gdp_growth := baseGDP
        expected_loss := baseExpectedLoss
        green_finance_share := baseGreenFinance
        capital_ratio := 15.5
        liquidity_coverage := 135 }
    projected :=
      { npa_ratio := roundTo 2 (projectedNPA p)
        gdp_growth := roundTo 2 (projectedGDP p)
        expected_loss := roundTo 0 (projectedExpectedLoss p)
        green_finance_share := roundTo 1 (projectedGreenFinance p)
        capital_ratio := roundTo 2 (15.5 + capitalImpact p)
        liquidity_coverage := roundTo 0 (135 - liquidityStress p * 0.5) }
    risk_scores :=
      { physical := roundTo 1 (physicalRisk p)
        transition := roundTo 1 (transitionRisk p)
        financial := roundTo 1 (financialRisk p)
        operational := roundTo 1 (operationalRisk p)
        regulatory := roundTo 1 (regulatoryRisk p)
        overall := roundTo 1 (overallStressScore p) }
    changes :=
      { npa_change := roundTo 2 (projectedNPA p - baseNPA)
        gdp_change := roundTo 2 (projectedGDP p - baseGDP)
        loss_change_pct :=
          roundTo 1 ((projectedExpectedLoss p - baseExpectedLoss) / baseExpectedLoss * 100) }
    stress_level :=
      if overallStressScore p > 70 then "Severe"
      else if overallStressScore p > 50 then "High"
      else if overallStressScore p > 30 then "Moderate"
      else "Low"
    capital_adequacy :=
      if 15.5 + capitalImpact p ≥ 11.5 then "Adequate"
      else if 15.5 + capitalImpact p ≥ 9 then "Watch"
      else "Critical" }

/-- A named preset parameter vector of the Scenarios page. -/
structure PresetScenario where
  name : String
  params : StressParams
  description : String

/-- Preset `Net Zero 2050`. -/
def netZero2050 : PresetScenario :=
  { name := "Net Zero 2050"
    params :=
      { temperature_rise := 1.5, carbon_price := 3000, green_investment_growth := 40
        fossil_phase_out := 10, water_stress_level := 35, disaster_frequency := 1.2 }
    description := "Aggressive decarbonization pathway" }

/-- Preset `Business as Usual`. -/
def businessAsUsual : PresetScenario :=
  { name := "Business as Usual"
    params :=
      { temperature_rise := 2.5, carbon_price := 800, green_investment_growth := 10
        fossil_phase_out := 2, water_stress_level := 55, disaster_frequency := 1.8 }
    description := "Current trajectory continues" }

/-- Preset `Delayed Transition`. -/
def delayedTransition : PresetScenario :=
  { name := "Delayed Transition"
    params :=
      { temperature_rise := 2.0, carbon_price := 1500, green_investment_growth := 25
        fossil_phase_out := 5, water_stress_level := 50, disaster_frequency := 1.5 }
    description := "Gradual policy implementation" }

/-- Preset `Climate Crisis`. -/
def climateCrisis : PresetScenario :=
  { name := "Climate Crisis"
    params :=
      { temperature_rise := 3.5, carbon_price := 500, green_investment_growth := 5
        fossil_phase_out := 1, water_stress_level := 80, disaster_frequency := 2.5 }
    description := "Worst-case climate scenario" }

/-- Preset `Green Recovery`. -/
def greenRecovery : PresetScenario :=
  { name := "Green Recovery"
    params :=
      { temperature_rise := 1.8, carbon_price := 2500, green_investment_growth := 45
        fossil_phase_out := 12, water_stress_level := 40, disaster_frequency := 1.3 }
    description := "Accelerated green investment" }

/-- `presetScenarios`, in source order. -/
def presetScenarios : List PresetScenario :=
  [netZero2050, businessAsUsual, delayedTransition, climateCrisis, greenRecovery]

/-- Recommendation shown when `risk_scores.physical > 50`. -/
def recPhysical : String :=
  "Increase physical risk provisions and review exposure to climate-vulnerable assets"

/-- Recommendation shown when `risk_scores.transition > 50`. -/
def recTransition : String :=
  "Accelerate divestment from high-carbon sectors and increase green finance allocation"

/-- Recommendation shown when `projected.capital_ratio < 12`. -/
def recCapital : String :=
  "Consider capital buffer enhancement to maintain regulatory requirements"

/-- Recommendation shown when `changes.npa_change > 1`. -/
def recCredit : String :=
  "Implement enhanced credit monitoring for climate-sensitive sectors"

/-- First always-present recommendation. -/
def recMonitor : String :=
  "Continue monitoring and run quarterly stress tests with updated parameters"

/-- Second always-present recommendation. -/
def recDiversify : String :=
  "Maintain diversified portfolio across climate-resilient sectors"

/-- The ordered recommendation list rendered from a report on the Scenarios page. -/
def recommendations (r : StressReport) : List String :=
  (if r.risk_scores.physical > 50 then [recPhysical] else []) ++
  (if r.risk_scores.transition > 50 then [recTransition] else []) ++
  (if r.projected.capital_ratio < 12 then [recCapital] else []) ++
  (if r.changes.npa_change > 1 then [recCredit] else []) ++
  [recMonitor, recDiversify]

instance (p : StressParams) : Decidable (InRange p) := by
  unfold InRange
  infer_instance

/-- Spec §4.4: `overall > 70 → Severe; > 50 → High; > 30 → Moderate; else → Low`
(strict greater-than, evaluated in that order, first match wins). -/
def stressLevelSpec (overall : ℚ) : String :=
  if overall > 70 then "Severe"
  else if overall > 50 then "High"
  else if overall > 30 then "Moderate"
  else "Low"

/-- Spec §4.4: `>= 11.5 → Adequate; >= 9 → Watch; else → Critical`. -/
def capitalAdequacySpec (projected_capital_ratio : ℚ) : String :=
  if projected_capital_ratio ≥ 11.5 then "Adequate"
  else if projected_capital_ratio ≥ 9 then "Watch"
  else "Critical"

/-- Spec §4.3: `temperature_impact = (temperature_rise − 1.5)² × 0.8`. -/
def temperatureImpactSpec (p : StressParams) : ℚ :=
  (p.temperature_rise - 1.5) ^ 2 * 0.8

/-- Spec §4.3: `carbon_price_impact = (carbon_price − 1000) / 1000 × 0.3`. -/
def carbonPriceImpactSpec (p : StressParams) : ℚ :=
  (p.carbon_price - 1000) / 1000 * 0.3

/-- Spec §4.3: `green_investment_benefit = green_investment_growth × 0.02`. -/
def greenInvestmentBenefitSpec (p : StressParams) : ℚ :=
  p.green_investment_growth * 0.02

/-- Spec §4.3: `fossil_phase_out_cost = fossil_phase_out × 0.15`. -/
def fossilPhaseOutCostSpec (p : StressParams) : ℚ :=
  p.fossil_phase_out * 0.15

/-- Spec §4.3: `water_stress_impact = water_stress_level / 100 × 0.5`. -/
def waterStressImpactSpec (p : StressParams) : ℚ :=
  p.water_stress_level / 100 * 0.5

/-- Spec §4.3: `disaster_impact = (disaster_frequency − 1) × 1.2`. -/
def disasterImpactSpec (p : StressParams) : ℚ :=
  (p.disaster_frequency - 1) * 1.2

/-- Spec §4.3: `projected_npa = max(0, baseline_npa + temperature_impact +
water_stress_impact + disaster_impact − green_investment_benefit)` with
`baseline_npa = 2.5`. -/
def projectedNPASpec (p : StressParams) : ℚ :=
  max 0 (2.5 + temperatureImpactSpec p + waterStressImpactSpec p + disasterImpactSpec p -
    greenInvestmentBenefitSpec p)

/-- Spec §4.3: `projected_gdp = max(0, baseline_gdp − 0.5·temperature_impact −
0.3·fossil_phase_out_cost − 0.4·disaster_impact + 0.2·green_investment_benefit)`
with `baseline_gdp = 6.5`. -/
def projectedGDPSpec (p : StressParams) : ℚ :=
  max 0 (6.5 - 0.5 * temperatureImpactSpec p - 0.3 * fossilPhaseOutCostSpec p -
    0.4 * disasterImpactSpec p + 0.2 * greenInvestmentBenefitSpec p)

/-- Spec §4.3: `projected_expected_loss = baseline_expected_loss ×
(1 + 0.2·temperature_impact + 0.15·disaster_impact)` with
`baseline_expected_loss = 15000`. -/
def projectedExpectedLossSpec (p : StressParams) : ℚ :=
  15000 * (1 + 0.2 * temperatureImpactSpec p + 0.15 * disasterImpactSpec p)

/-- An in-range input whose raw overall stress score is 70.03: it rounds to 70.0
in the report while the unrounded score is strictly above the Severe threshold. -/
def thresholdShowcaseParams : StressParams :=
  { temperature_rise := 3
    carbon_price := 1800
    green_investment_growth := 0
    fossil_phase_out := 0
    water_stress_level := 49
    disaster_frequency := 2 }

/-- Default parameters warmed to 2.0 °C (used to exhibit temperature monotonicity). -/
def warmParams : StressParams :=
  { defaultParams with temperature_rise := 2 }

/-- Default parameters warmed to 3.0 °C (used to exhibit temperature monotonicity). -/
def hotParams : StressParams :=
  { defaultParams with temperature_rise := 3 }

/-- Default parameters with water stress 60 and green investment growth 25: the
physical score is 52.5 while transition, capital ratio and NPA change agree with
`physBelowParams`. -/
def physAboveParams : StressParams :=
  { defaultParams with water_stress_level := 60, green_investment_growth := 25 }

/-- Default parameters with water stress 40: the physical score is exactly 50. -/
def physBelowParams : StressParams :=
  { defaultParams with water_stress_level := 40 }

/-- The bounds of spec §8 on a report: the five risk-dimension scores and the
overall score lie in [0,100], and the projected NPA and GDP are non-negative. -/
def ReportWithinBounds (r : StressReport) : Prop :=
  0 ≤ r.risk_scores.physical ∧ r.risk_scores.physical ≤ 100 ∧
  0 ≤ r.risk_scores.transition ∧ r.risk_scores.transition ≤ 100 ∧
  0 ≤ r.risk_scores.financial ∧ r.risk_scores.financial ≤ 100 ∧
  0 ≤ r.risk_scores.operational ∧ r.risk_scores.operational ≤ 100 ∧
  0 ≤ r.risk_scores.regulatory ∧ r.risk_scores.regulatory ≤ 100 ∧
  0 ≤ r.risk_scores.overall ∧ r.risk_scores.overall ≤ 100 ∧
  0 ≤ r.projected.npa_ratio ∧ 0 ≤ r.projected.gdp_growth

/-! ### Helper lemmas about the rounding embedding -/

theorem roundTo_mono (d : ℕ) {x y : ℚ} (h : x ≤ y) : roundTo d x ≤ roundTo d y := by
  unfold roundTo
  have hp : (0 : ℚ) < 10 ^ d := by positivity
  have hr : round (x * 10 ^ d) ≤ round (y * 10 ^ d) := by
    rw [round_eq, round_eq]
    refine Int.floor_mono ?_
    have := mul_le_mul_of_nonneg_right h (le_of_lt hp)
    linarith
  rw [div_le_div_iff₀ hp hp]
  have hc : ((round (x * 10 ^ d) : ℤ) : ℚ) ≤ ((round (y * 10 ^ d) : ℤ) : ℚ) := by
    exact_mod_cast hr
  exact mul_le_mul_of_nonneg_right hc (le_of_lt hp)

theorem roundTo_zero (d : ℕ) : roundTo d 0 = 0 := by
  unfold roundTo
  simp

theorem roundTo_nonneg (d : ℕ) {x : ℚ} (h : 0 ≤ x) : 0 ≤ roundTo d x := by
  have := roundTo_mono d h
  rw [roundTo_zero] at this
  exact this

theorem roundTo_one_hundred : roundTo 1 (100 : ℚ) = 100 := by
  unfold roundTo
  rw [show (100 : ℚ) * 10 ^ 1 = ((1000 : ℤ) : ℚ) by norm_num, round_intCast]
  norm_num

theorem roundTo_le_hundred {x : ℚ} (h : x ≤ 100) : roundTo 1 x ≤ 100 := by
  have := roundTo_mono 1 h
  rw [roundTo_one_hundred] at this
  exact this

/-! ### C1 -/

/-- C1 counterexample: the "Climate Crisis" preset does not produce
`stress_level = "Severe"` — its overall stress score is 69.7, below the strict
70 threshold. -/
theorem climateCrisis_stress_level_ne_severe :
    (calculateStressOutcomes climateCrisis.params).stress_level ≠ "Severe" := by
  norm_num [calculateStressOutcomes, climateCrisis, overallStressScore, physicalRisk,
    transitionRisk, financialRisk, operationalRisk, regulatoryRisk, temperatureImpact,
    carbonPriceImpact, greenInvestmentBenefit, fossilPhaseOutCost, waterStressImpact,
    disasterImpact, projectedNPA, baseNPA]
  decide

/-- C1 (amended): the preset named "Climate Crisis"
(`temperature_rise=3.5, carbon_price=500, green_investment_growth=5,
fossil_phase_out=1, water_stress_level=80, disaster_frequency=2.5`) is in the
preset library, its overall stress score is 69.7, and the report produced by
the stress-outcome computation has `stress_level = "High"`. -/
theorem climateCrisis_stress_level_high :
    climateCrisis ∈ presetScenarios ∧
    climateCrisis.name = "Climate Crisis" ∧
    climateCrisis.params =
      { temperature_rise := 3.5, carbon_price := 500, green_investment_growth := 5
        fossil_phase_out := 1, water_stress_level := 80, disaster_frequency := 2.5 } ∧
    overallStressScore climateCrisis.params = 69.7 ∧
    (calculateStressOutcomes climateCrisis.params).stress_level = "High" := by
  refine ⟨by simp [presetScenarios], rfl, rfl, ?_, ?_⟩
  · norm_num [climateCrisis, overallStressScore, physicalRisk,
      transitionRisk, financialRisk, operationalRisk, regulatoryRisk, temperatureImpact,
      carbonPriceImpact, greenInvestmentBenefit, fossilPhaseOutCost, waterStressImpact,
      disasterImpact, projectedNPA, baseNPA]
  · norm_num [calculateStressOutcomes, climateCrisis, overallStressScore, physicalRisk,
      transitionRisk, financialRisk, operationalRisk, regulatoryRisk, temperatureImpact,
      carbonPriceImpact, greenInvestmentBenefit, fossilPhaseOutCost, waterStressImpact,
      disasterImpact, projectedNPA, baseNPA]

/-! ### C2 -/

/-- C2: for every parameter vector the report's `stress_level` equals the spec's
classifier — strict greater-than thresholds 70/50/30 evaluated in order, first
match wins — applied to the overall stress score; at the boundary the spec
classifier sends exactly 70.0 to "High" and 70.01 to "Severe". -/
theorem stress_level_matches_spec_classifier :
    (∀ p : StressParams,
      (calculateStressOutcomes p).stress_level = stressLevelSpec (overallStressScore p)) ∧
    stressLevelSpec 70 = "High" ∧
    stressLevelSpec 70.01 = "Severe" ∧
    stressLevelSpec 50 = "Moderate" ∧
    stressLevelSpec 30 = "Low" := by
  refine ⟨fun p => rfl, ?_, ?_, ?_, ?_⟩ <;> norm_num [stressLevelSpec]

/-! ### C9 -/

/-- C9: the `baseline` block of the report is the fixed constant record
(npa 2.5, gdp 6.5, expected loss 15000, green finance 20, capital 15.5,
liquidity 135) for every input, so any two inputs yield identical baselines. -/
theorem baseline_is_constant :
    (∀ p : StressParams,
      (calculateStressOutcomes p).baseline =
        { npa_ratio := 2.5, gdp_growth := 6.5, expected_loss := 15000
          green_finance_share := 20, capital_ratio := 15.5, liquidity_coverage := 135 }) ∧
    ∀ p q : StressParams,
      (calculateStressOutcomes p).baseline = (calculateStressOutcomes q).baseline :=
  ⟨fun _ => rfl, fun _ _ => rfl⟩

/-! ### C3 -/

/-- C3 counterexample: at the default parameters the physical risk score placed
in the report is 50.6 (one decimal), not the two-decimal rounding 50.63 of the
raw score 50.625 — so risk-dimension scores are not rounded to two decimals. -/
theorem risk_scores_not_two_decimals :
    (calculateStressOutcomes defaultParams).risk_scores.physical ≠
      roundTo 2 (physicalRisk defaultParams) := by
  have h1 : (calculateStressOutcomes defaultParams).risk_scores.physical = 50.6 := by
    norm_num [calculateStressOutcomes, defaultParams, physicalRisk, temperatureImpact,
      waterStressImpact, disasterImpact, roundTo, round_eq, Int.floor_eq_iff]
  have h2 : roundTo 2 (physicalRisk defaultParams) = 50.63 := by
    norm_num [defaultParams, physicalRisk, temperatureImpact,
      waterStressImpact, disasterImpact, roundTo, round_eq, Int.floor_eq_iff]
  rw [h1, h2]
  norm_num

/-- C3 (amended): every numeric field placed in the report is rounded with the
fixed policy of the source: two decimals for the projected NPA ratio, GDP
growth and capital ratio and for the NPA and GDP change fields; one decimal for
the five risk-dimension scores, the overall score, the projected green-finance
share and the loss-change percentage; zero decimals for the projected expected
loss and liquidity coverage. -/
theorem rounding_policy (p : StressParams) :
    (calculateStressOutcomes p).projected.npa_ratio = roundTo 2 (projectedNPA p) ∧
    (calculateStressOutcomes p).projected.gdp_growth = roundTo 2 (projectedGDP p) ∧
    (calculateStressOutcomes p).projected.expected_loss =
      roundTo 0 (projectedExpectedLoss p) ∧
    (calculateStressOutcomes p).projected.green_finance_share =
      roundTo 1 (projectedGreenFinance p) ∧
    (calculateStressOutcomes p).projected.capital_ratio =
      roundTo 2 (15.5 + capitalImpact p) ∧
    (calculateStressOutcomes p).projected.liquidity_coverage =
      roundTo 0 (135 - liquidityStress p * 0.5) ∧
    (calculateStressOutcomes p).risk_scores.physical = roundTo 1 (physicalRisk p) ∧
    (calculateStressOutcomes p).risk_scores.transition = roundTo 1 (transitionRisk p) ∧
    (calculateStressOutcomes p).risk_scores.financial = roundTo 1 (financialRisk p) ∧
    (calculateStressOutcomes p).risk_scores.operational = roundTo 1 (operationalRisk p) ∧
    (calculateStressOutcomes p).risk_scores.regulatory = roundTo 1 (regulatoryRisk p) ∧
    (calculateStressOutcomes p).risk_scores.overall = roundTo 1 (overallStressScore p) ∧
    (calculateStressOutcomes p).changes.npa_change = roundTo 2 (projectedNPA p - baseNPA) ∧
    (calculateStressOutcomes p).changes.gdp_change = roundTo 2 (projectedGDP p - baseGDP) ∧
    (calculateStressOutcomes p).changes.loss_change_pct =
      roundTo 1 ((projectedExpectedLoss p - baseExpectedLoss) / baseExpectedLoss * 100) :=
  ⟨rfl, rfl, rfl, rfl, rfl, rfl, rfl, rfl, rfl, rfl, rfl, rfl, rfl, rfl, rfl⟩

/-! ### C4 -/

/-- C4: the six impact terms and the three projected metrics of the engine
coincide, for every parameter vector, with the closed-form formulas of spec
§4.3. -/
theorem impact_and_projection_formulas (p : StressParams) :
    temperatureImpact p = temperatureImpactSpec p ∧
    carbonPriceImpact p = carbonPriceImpactSpec p ∧
    greenInvestmentBenefit p = greenInvestmentBenefitSpec p ∧
    fossilPhaseOutCost p = fossilPhaseOutCostSpec p ∧
    waterStressImpact p = waterStressImpactSpec p ∧
    disasterImpact p = disasterImpactSpec p ∧
    projectedNPA p = projectedNPASpec p ∧
    projectedGDP p = projectedGDPSpec p ∧
    projectedExpectedLoss p = projectedExpectedLossSpec p := by
  refine ⟨rfl, rfl, rfl, rfl, rfl, rfl, rfl, ?_, ?_⟩
  · unfold projectedGDP projectedGDPSpec baseGDP temperatureImpact temperatureImpactSpec
      fossilPhaseOutCost fossilPhaseOutCostSpec disasterImpact disasterImpactSpec
      greenInvestmentBenefit greenInvestmentBenefitSpec
    exact congrArg (max 0) (by ring)
  · unfold projectedExpectedLoss projectedExpectedLossSpec baseExpectedLoss
      temperatureImpact temperatureImpactSpec disasterImpact disasterImpactSpec
    ring

/-! ### C5 -/

/-- C5: for every parameter vector the report's `capital_adequacy` equals the
spec's classifier — `>= 11.5 → Adequate; >= 9 → Watch; else → Critical` —
applied to the projected capital ratio `15.5 + capital_impact`, where
`capital_impact = -(temperature_impact + transition_risk/100) * 2`; at the
boundary the spec classifier sends exactly 11.5 to "Adequate" and 11.49 to
"Watch". -/
theorem capital_adequacy_matches_spec_classifier :
    (∀ p : StressParams,
      (calculateStressOutcomes p).capital_adequacy =
        capitalAdequacySpec (15.5 + capitalImpact p) ∧
      capitalImpact p = -(temperatureImpact p + transitionRisk p / 100) * 2) ∧
    capitalAdequacySpec 11.5 = "Adequate" ∧
    capitalAdequacySpec 11.49 = "Watch" := by
  refine ⟨fun p => ⟨rfl, by unfold capitalImpact; ring⟩, ?_, ?_⟩ <;>
    norm_num [capitalAdequacySpec]

/-! ### C10 -/

/-- C10: `stress_level` and `capital_adequacy` are computed from the unrounded
overall score and unrounded projected capital ratio; at the in-range input
`thresholdShowcaseParams` the raw overall score 70.03 rounds to exactly 70.0 in
the report, yet the label is "Severe" — the rounded field sits at the threshold
while the label belongs to the other side of it. -/
theorem labels_use_unrounded_scores :
    (∀ p : StressParams,
      (calculateStressOutcomes p).stress_level = stressLevelSpec (overallStressScore p) ∧
      (calculateStressOutcomes p).capital_adequacy =
        capitalAdequacySpec (15.5 + capitalImpact p)) ∧
    InRange thresholdShowcaseParams ∧
    overallStressScore thresholdShowcaseParams = 70.03 ∧
    (calculateStressOutcomes thresholdShowcaseParams).risk_scores.overall = 70 ∧
    (calculateStressOutcomes thresholdShowcaseParams).stress_level = "Severe" ∧
    stressLevelSpec ((calculateStressOutcomes thresholdShowcaseParams).risk_scores.overall) =
      "High" := by
  have hraw : overallStressScore thresholdShowcaseParams = 70.03 := by
    norm_num [thresholdShowcaseParams, overallStressScore, physicalRisk,
      transitionRisk, financialRisk, operationalRisk, regulatoryRisk, temperatureImpact,
      carbonPriceImpact, greenInvestmentBenefit, fossilPhaseOutCost, waterStressImpact,
      disasterImpact, projectedNPA, baseNPA]
  have hov : (calculateStressOutcomes thresholdShowcaseParams).risk_scores.overall = 70 := by
    show roundTo 1 (overallStressScore thresholdShowcaseParams) = 70
    rw [hraw]
    norm_num [roundTo, round_eq, Int.floor_eq_iff]
  refine ⟨fun p => ⟨rfl, rfl⟩, by norm_num [InRange, thresholdShowcaseParams], hraw, hov,
    ?_, ?_⟩
  · show stressLevelSpec (overallStressScore thresholdShowcaseParams) = "Severe"
    rw [hraw]
    norm_num [stressLevelSpec]
  · rw [hov]
    norm_num [stressLevelSpec]

/-! ### Bounds on the raw impact terms (shared helpers) -/

theorem temperatureImpact_nonneg (p : StressParams) : 0 ≤ temperatureImpact p := by
  unfold temperatureImpact
  positivity

theorem waterStressImpact_nonneg (p : StressParams) (h : 0 ≤ p.water_stress_level) :
    0 ≤ waterStressImpact p := by
  unfold waterStressImpact
  have he : p.water_stress_level / 100 * 0.5 = p.water_stress_level * (1 / 200) := by
    ring
  rw [he]
  exact mul_nonneg h (by norm_num)

theorem disasterImpact_nonneg (p : StressParams) (h : 1 ≤ p.disaster_frequency) :
    0 ≤ disasterImpact p := by
  unfold disasterImpact
  nlinarith

theorem fossilPhaseOutCost_nonneg (p : StressParams) (h : 0 ≤ p.fossil_phase_out) :
    0 ≤ fossilPhaseOutCost p := by
  unfold fossilPhaseOutCost
  nlinarith

theorem greenInvestmentBenefit_le_one (p : StressParams)
    (h : p.green_investment_growth ≤ 50) : greenInvestmentBenefit p ≤ 1 := by
  unfold greenInvestmentBenefit
  nlinarith

theorem carbonPriceImpact_ge (p : StressParams) (h : 500 ≤ p.carbon_price) :
    -0.15 ≤ carbonPriceImpact p := by
  unfold carbonPriceImpact
  have he : (p.carbon_price - 1000) / 1000 * 0.3 = p.carbon_price * (3 / 10000) - 0.3 := by
    ring
  rw [he]
  nlinarith

theorem projectedNPA_ge (p : StressParams) (hg : p.green_investment_growth ≤ 50)
    (hw : 0 ≤ p.water_stress_level) (hd : 1 ≤ p.disaster_frequency) :
    1.5 ≤ projectedNPA p := by
  have h1 := temperatureImpact_nonneg p
  have h2 := waterStressImpact_nonneg p hw
  have h3 := disasterImpact_nonneg p hd
  have h4 := greenInvestmentBenefit_le_one p hg
  unfold projectedNPA baseNPA
  refine le_trans ?_ (le_max_right _ _)
  linarith

/-! ### C6 -/

/-- C6: for every parameter vector inside the declared [min,max] ranges, each
of the five risk-dimension scores and the overall score placed in the report
lies in [0,100], and the projected NPA ratio and GDP growth are non-negative. -/
theorem report_scores_within_bounds (p : StressParams) (h : InRange p) :
    ReportWithinBounds (calculateStressOutcomes p) := by
  obtain ⟨ht1, ht2, hc1, hc2, hg1, hg2, hf1, hf2, hw1, hw2, hd1, hd2⟩ := h
  have hti := temperatureImpact_nonneg p
  have hwi := waterStressImpact_nonneg p hw1
  have hdi := disasterImpact_nonneg p hd1
  have hfc := fossilPhaseOutCost_nonneg p hf1
  have hcp := carbonPriceImpact_ge p hc1
  have hnpa := projectedNPA_ge p hg2 hw1 hd1
  have hphys1 : 0 ≤ physicalRisk p := by
    unfold physicalRisk
    exact le_min (by norm_num) (by nlinarith)
  have hphys2 : physicalRisk p ≤ 100 := by
    unfold physicalRisk
    exact min_le_left _ _
  have htr1 : 0 ≤ transitionRisk p := by
    unfold transitionRisk
    exact le_min (by norm_num) (by nlinarith)
  have htr2 : transitionRisk p ≤ 100 := by
    unfold transitionRisk
    exact min_le_left _ _
  have hfin1 : 0 ≤ financialRisk p := by
    unfold financialRisk
    refine le_min (by norm_num) ?_
    have he : (projectedNPA p / baseNPA - 1) * 50 + 40 = projectedNPA p * 20 - 10 := by
      unfold baseNPA
      ring
    rw [he]
    linarith
  have hfin2 : financialRisk p ≤ 100 := by
    unfold financialRisk
    exact min_le_left _ _
  have hop1 : 0 ≤ operationalRisk p := by
    unfold operationalRisk
    exact le_min (by norm_num) (by nlinarith)
  have hop2 : operationalRisk p ≤ 100 := by
    unfold operationalRisk
    exact min_le_left _ _
  have hreg1 : 0 ≤ regulatoryRisk p := by
    unfold regulatoryRisk
    refine le_min (by norm_num) ?_
    have he : p.carbon_price / 1000 * 15 + 30 = p.carbon_price * (3 / 200) + 30 := by
      ring
    rw [he]
    nlinarith
  have hreg2 : regulatoryRisk p ≤ 100 := by
    unfold regulatoryRisk
    exact min_le_left _ _
  have hov1 : 0 ≤ overallStressScore p := by
    unfold overallStressScore
    linarith
  have hov2 : overallStressScore p ≤ 100 := by
    unfold overallStressScore
    linarith
  have hnpa0 : (0 : ℚ) ≤ projectedNPA p := by linarith
  have hgdp0 : (0 : ℚ) ≤ projectedGDP p := by
    unfold projectedGDP
    exact le_max_left _ _
  exact ⟨roundTo_nonneg 1 hphys1, roundTo_le_hundred hphys2,
    roundTo_nonneg 1 htr1, roundTo_le_hundred htr2,
    roundTo_nonneg 1 hfin1, roundTo_le_hundred hfin2,
    roundTo_nonneg 1 hop1, roundTo_le_hundred hop2,
    roundTo_nonneg 1 hreg1, roundTo_le_hundred hreg2,
    roundTo_nonneg 1 hov1, roundTo_le_hundred hov2,
    roundTo_nonneg 2 hnpa0, roundTo_nonneg 2 hgdp0⟩

/-- C6 witness: the default parameter vector is in range and its report
satisfies the bounds. -/
theorem report_scores_within_bounds_witness :
    InRange defaultParams ∧ ReportWithinBounds (calculateStressOutcomes defaultParams) :=
  ⟨by norm_num [InRange, defaultParams],
    report_scores_within_bounds defaultParams (by norm_num [InRange, defaultParams])⟩

/-! ### C7 -/

/-- C7: for two in-range parameter vectors agreeing on everything except
`temperature_rise`, with both temperatures at least 1.5 and the second at least
the first, the second vector's physical risk score (raw and as reported) and
projected NPA (raw and as reported) are at least the first's. -/
theorem temperature_monotone (p q : StressParams) (_hp : InRange p) (_hq : InRange q)
    (_hcp : p.carbon_price = q.carbon_price)
    (hg : p.green_investment_growth = q.green_investment_growth)
    (_hf : p.fossil_phase_out = q.fossil_phase_out)
    (hw : p.water_stress_level = q.water_stress_level)
    (hd : p.disaster_frequency = q.disaster_frequency)
    (h15 : 1.5 ≤ p.temperature_rise)
    (hle : p.temperature_rise ≤ q.temperature_rise) :
    physicalRisk p ≤ physicalRisk q ∧ projectedNPA p ≤ projectedNPA q ∧
    (calculateStressOutcomes p).risk_scores.physical ≤
      (calculateStressOutcomes q).risk_scores.physical ∧
    (calculateStressOutcomes p).projected.npa_ratio ≤
      (calculateStressOutcomes q).projected.npa_ratio := by
  have hwi : waterStressImpact p = waterStressImpact q := by
    unfold waterStressImpact
    rw [hw]
  have hdi : disasterImpact p = disasterImpact q := by
    unfold disasterImpact
    rw [hd]
  have hgi : greenInvestmentBenefit p = greenInvestmentBenefit q := by
    unfold greenInvestmentBenefit
    rw [hg]
  have hti : temperatureImpact p ≤ temperatureImpact q := by
    unfold temperatureImpact
    have h0 : (0 : ℚ) ≤ p.temperature_rise - 1.5 := by linarith
    have h1 : p.temperature_rise - 1.5 ≤ q.temperature_rise - 1.5 := by linarith
    nlinarith [pow_le_pow_left₀ h0 h1 2]
  have hphys : physicalRisk p ≤ physicalRisk q := by
    unfold physicalRisk
    rw [hwi, hdi]
    exact min_le_min (le_refl _) (by nlinarith)
  have hnpa : projectedNPA p ≤ projectedNPA q := by
    unfold projectedNPA
    rw [hwi, hdi, hgi]
    exact max_le_max (le_refl _) (by linarith)
  exact ⟨hphys, hnpa, roundTo_mono 1 hphys, roundTo_mono 2 hnpa⟩

/-- C7 witness: warming the default scenario from 2.0 °C to 3.0 °C does not
decrease the physical score or the projected NPA. -/
theorem temperature_monotone_witness :
    InRange warmParams ∧ InRange hotParams ∧
    warmParams.carbon_price = hotParams.carbon_price ∧
    warmParams.green_investment_growth = hotParams.green_investment_growth ∧
    warmParams.fossil_phase_out = hotParams.fossil_phase_out ∧
    warmParams.water_stress_level = hotParams.water_stress_level ∧
    warmParams.disaster_frequency = hotParams.disaster_frequency ∧
    (1.5 : ℚ) ≤ warmParams.temperature_rise ∧
    warmParams.temperature_rise ≤ hotParams.temperature_rise ∧
    (physicalRisk warmParams ≤ physicalRisk hotParams ∧
      projectedNPA warmParams ≤ projectedNPA hotParams ∧
      (calculateStressOutcomes warmParams).risk_scores.physical ≤
        (calculateStressOutcomes hotParams).risk_scores.physical ∧
      (calculateStressOutcomes warmParams).projected.npa_ratio ≤
        (calculateStressOutcomes hotParams).projected.npa_ratio) :=
  ⟨by norm_num [InRange, warmParams, defaultParams],
    by norm_num [InRange, hotParams, defaultParams],
    rfl, rfl, rfl, rfl, rfl,
    by norm_num [warmParams],
    by norm_num [warmParams, hotParams],
    temperature_monotone warmParams hotParams
      (by norm_num [InRange, warmParams, defaultParams])
      (by norm_num [InRange, hotParams, defaultParams])
      rfl rfl rfl rfl rfl
      (by norm_num [warmParams])
      (by norm_num [warmParams, hotParams])⟩

/-! ### C8 -/

/-- C8: every recommendation list contains the two always-present baseline
recommendations; the physical-risk recommendation is present exactly when the
reported physical score exceeds 50; and for two inputs whose reports agree on
the other rule inputs (transition score, capital ratio, NPA change) while
physical crosses the 50 threshold, the two recommendation lists differ in
exactly that one leading entry. -/
theorem recommendation_rules :
    (∀ p : StressParams,
      recMonitor ∈ recommendations (calculateStressOutcomes p) ∧
      recDiversify ∈ recommendations (calculateStressOutcomes p) ∧
      (recPhysical ∈ recommendations (calculateStressOutcomes p) ↔
        (calculateStressOutcomes p).risk_scores.physical > 50)) ∧
    (∀ p q : StressParams,
      (calculateStressOutcomes p).risk_scores.transition =
        (calculateStressOutcomes q).risk_scores.transition →
      (calculateStressOutcomes p).projected.capital_ratio =
        (calculateStressOutcomes q).projected.capital_ratio →
      (calculateStressOutcomes p).changes.npa_change =
        (calculateStressOutcomes q).changes.npa_change →
      (calculateStressOutcomes p).risk_scores.physical > 50 →
      (calculateStressOutcomes q).risk_scores.physical ≤ 50 →
      recommendations (calculateStressOutcomes p) =
        recPhysical :: recommendations (calculateStressOutcomes q)) := by
  constructor
  · intro p
    refine ⟨?_, ?_, ?_⟩
    · unfold recommendations
      split_ifs <;> simp
    · unfold recommendations
      split_ifs <;> simp
    · unfold recommendations
      split_ifs with h1 h2 h3 h4 <;>
        simp [h1, recPhysical, recTransition, recCapital, recCredit, recMonitor,
          recDiversify]
  · intro p q htr hcap hnc h1 h2
    unfold recommendations
    rw [htr, hcap, hnc, if_pos h1, if_neg (not_lt.mpr h2)]
    simp

/-- C8 witness: two concrete in-range inputs whose reports agree on the
transition score, capital ratio and NPA change, with physical scores 52.5 and
50.0; the first list is exactly the physical-risk entry prepended to the
second. -/
theorem recommendation_rules_witness :
    (calculateStressOutcomes physAboveParams).risk_scores.transition =
      (calculateStressOutcomes physBelowParams).risk_scores.transition ∧
    (calculateStressOutcomes physAboveParams).projected.capital_ratio =
      (calculateStressOutcomes physBelowParams).projected.capital_ratio ∧
    (calculateStressOutcomes physAboveParams).changes.npa_change =
      (calculateStressOutcomes physBelowParams).changes.npa_change ∧
    (calculateStressOutcomes physAboveParams).risk_scores.physical > 50 ∧
    (calculateStressOutcomes physBelowParams).risk_scores.physical ≤ 50 ∧
    recommendations (calculateStressOutcomes physAboveParams) =
      recPhysical :: recommendations (calculateStressOutcomes physBelowParams) := by
  have htr : (calculateStressOutcomes physAboveParams).risk_scores.transition =
      (calculateStressOutcomes physBelowParams).risk_scores.transition := rfl
  have hcap : (calculateStressOutcomes physAboveParams).projected.capital_ratio =
      (calculateStressOutcomes physBelowParams).projected.capital_ratio := rfl
  have hnc : (calculateStressOutcomes physAboveParams).changes.npa_change =
      (calculateStressOutcomes physBelowParams).changes.npa_change := by
    show roundTo 2 (projectedNPA physAboveParams - baseNPA) =
      roundTo 2 (projectedNPA physBelowParams - baseNPA)
    norm_num [projectedNPA, physAboveParams, physBelowParams, defaultParams,
      temperatureImpact, waterStressImpact, disasterImpact, greenInvestmentBenefit,
      baseNPA]
  have h1 : (calculateStressOutcomes physAboveParams).risk_scores.physical > 50 := by
    show roundTo 1 (physicalRisk physAboveParams) > 50
    norm_num [physicalRisk, physAboveParams, defaultParams, temperatureImpact,
      waterStressImpact, disasterImpact, roundTo, round_eq, Int.floor_eq_iff]
  have h2 : (calculateStressOutcomes physBelowParams).risk_scores.physical ≤ 50 := by
    show roundTo 1 (physicalRisk physBelowParams) ≤ 50
    norm_num [physicalRisk, physBelowParams, defaultParams, temperatureImpact,
      waterStressImpact, disasterImpact, roundTo, round_eq, Int.floor_eq_iff]
  exact ⟨htr, hcap, hnc, h1, h2,
    recommendation_rules.2 physAboveParams physBelowParams htr hcap hnc h1 h2⟩

end FSRO
